import Mathlib

/-!
# Verification of the loops-expo feed/player interaction logic

Shallow embedding of the source files of the repository:

* `src/unnamed/part_001` — formatting utilities (`prettyCount`, `timeAgo`, …).
* `src/src/components/feed/VideoPlayer.tsx` — the per-item video player
  (auto play/pause effect, sensitive-content gate, manual-control flag,
  tap-to-reveal controls with a 3 s auto-hide timer, timeline scrubbing).
* `src/src/app/(tabs)/index.tsx` — the main feed screen (viewability
  callback, refresh, props passed to each `VideoPlayer`).
* `src/unnamed/part_000` — the profile feed screen (same viewability
  callback shape, same `VideoPlayer` props).

JavaScript numbers are modelled as exact rationals (`ℚ`) or integers (`ℤ`);
every input exercised by the claims is small and integral, where binary
floating point and exact arithmetic agree.
-/

namespace LoopsExpo

/-! ## Formatting utilities (src/unnamed/part_001)

`prettyCount` and `timeAgo`, translated line by line.  `Math.round` in
JavaScript rounds half-way cases toward +∞, `Math.floor`/`Math.ceil` are the
usual floor/ceiling; on rationals these are `⌊q + 1/2⌋`, `⌊q⌋`, `⌈q⌉`.
-/

/-- JavaScript `Math.round`: round half-up (toward +∞). -/
def jsRound (q : ℚ) : ℤ := ⌊q + 1/2⌋

/-- JavaScript `Math.floor`. -/
def jsFloor (q : ℚ) : ℤ := ⌊q⌋

/-- JavaScript `Math.ceil`. -/
def jsCeil (q : ℚ) : ℤ := ⌈q⌉

/-- The rounding mode option of `prettyCount`: round, floor or ceil. -/
inductive Rounding where
  | round
  | floor
  | ceil
  deriving DecidableEq, Repr

/-- The selected Math rounding function (default round) applied to a value. -/
def Rounding.apply : Rounding → ℚ → ℤ
  | .round, q => jsRound q
  | .floor, q => jsFloor q
  | .ceil,  q => jsCeil q

/-- The unit table: empty string, K, M, B, T. -/
def prettyCountUnits : List String := ["", "K", "M", "B", "T"]

/-- The scaling loop of `prettyCount`, with structural fuel:
`while (value >= 1000 && unitIndex < units.length - 1) { value /= 1000; unitIndex++; }`.
Each iteration increments `unitIndex`, and the guard `unitIndex < 4` stops the
loop, so fuel `4 - unitIndex` makes the fuel recursion exhaust exactly when
the guard fails. -/
def scaleLoopAux : ℕ → ℚ → ℕ → ℚ × ℕ
  | 0, value, unitIndex => (value, unitIndex)
  | fuel + 1, value, unitIndex =>
    if value ≥ 1000 ∧ unitIndex < 4 then
      scaleLoopAux fuel (value / 1000) (unitIndex + 1)
    else
      (value, unitIndex)

/-- The scaling loop of `prettyCount` started at `unitIndex`. -/
def scaleLoop (value : ℚ) (unitIndex : ℕ) : ℚ × ℕ :=
  scaleLoopAux (4 - unitIndex) value unitIndex

/-- Renders the nonnegative integer `scaled` divided by `10 ^ p` with exactly
`p` fraction digits, as `toLocaleString(undefined, { minimumFractionDigits: p,
maximumFractionDigits: p })` does for values below 1000 (no grouping occurs
there).  `scaled` is the value pre-multiplied by `10 ^ p`. -/
def formatFixed (scaled : ℤ) (p : ℕ) : String :=
  if p = 0 then toString scaled
  else
    let n := scaled.toNat
    let ip := n / 10 ^ p
    let fp := n % 10 ^ p
    let fpStr := toString fp
    let pad := String.mk (List.replicate (p - fpStr.length) '0')
    toString ip ++ "." ++ pad ++ fpStr

/-- `prettyCount` from `src/unnamed/part_001`, for a numeric argument.
The `!Number.isFinite(num) || isNaN(num)` guard never fires on `ℚ`.
`opts.precision` defaults to 0 and `opts.rounding` to round. -/
def prettyCount (num : ℚ) (precision : ℕ := 0) (rounding : Rounding := .round) :
    String :=
  let abs := |num|
  let sign := if num < 0 then "-" else ""
  let (value, unitIndex) := scaleLoop abs 0
  let factor : ℚ := 10 ^ precision
  let scaled : ℤ := rounding.apply (value * factor)
  let rounded : ℚ := (scaled : ℚ) / factor
  -- Avoid showing 1000 with a lower unit (e.g., 1000K => 1M)
  let unitIndex := if rounded ≥ 1000 ∧ unitIndex < 4 then unitIndex + 1 else unitIndex
  -- `(rounded >= 1000 ? 1 : rounded)`, kept pre-multiplied by `10 ^ precision`
  let outScaled : ℤ := if rounded ≥ 1000 then 10 ^ precision else scaled
  sign ++ formatFixed outScaled precision ++ (prettyCountUnits.getD unitIndex "")

/-! ### `timeAgo`

Dates are modelled by their epoch-millisecond value (`Date.getTime()`), and
the local calendar of `getMonth`/`getDate`/`getFullYear` by the proleptic
Gregorian calendar at UTC (the civil-from-days algorithm).  The claims about
`timeAgo` only exercise the sub-24-hour branch, which never consults the
calendar. -/

/-- Gregorian civil date from days since the Unix epoch: `(year, month0, day)`
with `month0` 0-based as the JavaScript `getMonth`. -/
def civilFromDays (z₀ : ℤ) : ℤ × ℕ × ℕ :=
  let z := z₀ + 719468
  let era : ℤ := z.fdiv 146097
  let doe : ℕ := (z - era * 146097).toNat
  let yoe : ℕ := (doe - doe / 1460 + doe / 36524 - doe / 146096) / 365
  let y : ℤ := (yoe : ℤ) + era * 400
  let doy : ℕ := doe - (365 * yoe + yoe / 4 - yoe / 100)
  let mp : ℕ := (5 * doy + 2) / 153
  let d : ℕ := doy - (153 * mp + 2) / 5 + 1
  let m : ℕ := if mp < 10 then mp + 3 else mp - 9
  (if m ≤ 2 then y + 1 else y, m - 1, d)

/-- The month-name table of `timeAgo`. -/
def monthNames : List String :=
  ["Jan", "Feb", "Mar", "Apr", "May", "Jun",
   "Jul", "Aug", "Sep", "Oct", "Nov", "Dec"]

/-- `timeAgo` from `src/unnamed/part_001` on epoch milliseconds:
`dMs` is `new Date(input).getTime()`, `refMs` the reference time.
JavaScript divisions under `Math.floor` are modelled as `⌊· / ·⌋` on ℚ. -/
def timeAgo (dMs refMs : ℤ) : String :=
  let diffMs := refMs - dMs
  -- `const s = Math.max(0, Math.floor(diffMs / 1000));`
  let s : ℤ := max 0 ⌊(diffMs : ℚ) / 1000⌋
  -- `const h = Math.floor(s / 3600);`
  let h : ℤ := ⌊(s : ℚ) / 3600⌋
  if h < 24 then
    if s < 5 then "now"
    else if s < 60 then toString s ++ "s"
    else
      let m : ℤ := ⌊(s : ℚ) / 60⌋
      if m < 60 then toString m ++ "m"
      else toString h ++ "h"
  else
    let (year, month0, day) := civilFromDays ⌊(dMs : ℚ) / 86400000⌋
    let month := monthNames.getD month0 ""
    let currentYear := (civilFromDays ⌊(refMs : ℚ) / 86400000⌋).1
    if year = currentYear then
      month ++ " " ++ toString day
    else
      month ++ " " ++ toString day ++ ", " ++ toString year

/-! ## Feed screens (src/src/app/(tabs)/index.tsx and src/unnamed/part_000)

The viewability callback, the refresh handler, and the exact prop names each
screen passes to `VideoPlayer`.
-/

/-- One entry of `viewableItems` as delivered by the viewability
callback; `index` is `number | null` in the host framework. -/
structure ViewToken where
  index : Option ℕ
  deriving DecidableEq, Repr

/-- `onViewableItemsChanged` from `LoopsFeed` (src/src/app/(tabs)/index.tsx,
lines 172–189) and identically from `ProfileFeed` (src/unnamed/part_000,
lines 109–113), restricted to its write of the active-item pointer:
`if (viewableItems.length > 0) setCurrentIndex(viewableItems[0].index || 0)`.
`x || 0` maps both `null` and `0` to `0`, i.e. `Option.getD 0`. -/
def onViewableItemsChanged (viewableItems : List ViewToken) (currentIndex : ℕ) : ℕ :=
  match viewableItems with
  | [] => currentIndex
  | t :: _ => t.index.getD 0

/-- The lowest index among the rows reported visible, following the words of
the spec: "selects the row with the lowest index as the new active item"
(missing indices read as 0, matching the `|| 0` in the code). -/
def specLowestVisibleIndex (viewableItems : List ViewToken) (currentIndex : ℕ) : ℕ :=
  match viewableItems.map (fun t => t.index.getD 0) with
  | [] => currentIndex
  | x :: xs => xs.foldl min x

/-- Feed-screen state relevant to refresh: the active-item pointer
(`currentIndex`), the list scroll offset, and the in-flight flag of the
query layer together with a count of fetches actually issued. -/
structure FeedScreenState where
  currentIndex : ℕ
  scrollOffset : ℚ
  queryInFlight : Bool
  fetchCount : ℕ
  deriving DecidableEq, Repr

/-- Modelled from the spec: `refetch` of the query library is not part of this
repository; per the spec, "Concurrent refresh requests collapse to one
in-flight fetch", so a `refetch` while a fetch is in flight issues no new
fetch. -/
def refetchQuery (s : FeedScreenState) : FeedScreenState :=
  if s.queryInFlight then s
  else { s with queryInFlight := true, fetchCount := s.fetchCount + 1 }

/-- `onRefresh` from src/src/app/(tabs)/index.tsx lines 305–308:
`flatListRef.current?.scrollToOffset({ offset: 0, animated: false }); await refetch();`.
It writes the scroll offset and triggers the refetch; it does not write
`currentIndex`. -/
def onRefresh (s : FeedScreenState) : FeedScreenState :=
  refetchQuery { s with scrollOffset := 0 }

/-- The prop names `LoopsFeed.renderItem` passes to `VideoPlayer`
(src/src/app/(tabs)/index.tsx lines 268–289). -/
def loopsFeedVideoPlayerProps : List String :=
  ["key", "item", "isActive", "onLike", "onComment", "onShare", "onBookmark",
   "onOther", "bottomInset", "commentsOpen", "shareOpen", "otherOpen",
   "onMorePress", "screenFocused", "videoPlaybackRates", "navigation",
   "onNavigate", "onTimelineControlledChanged"]

/-- The prop names `ProfileFeed.renderItem` passes to `VideoPlayer`
(src/unnamed/part_000 lines 156–175). -/
def profileFeedVideoPlayerProps : List String :=
  ["key", "item", "isActive", "onLike", "onComment", "onShare", "onOther",
   "onBookmark", "commentsOpen", "shareOpen", "otherOpen", "screenFocused",
   "videoPlaybackRates", "navigation", "onNavigate",
   "onTimelineControlledChanged"]

/-- The name under which `VideoPlayer` destructures its list-scroll-lock
callback (src/src/components/feed/VideoPlayer.tsx line 43). -/
def videoPlayerTimelineCallbackProp : String := "onTimelineControlled"

/-! ## Feed item and optimistic engagement counters
(src/src/components/feed/VideoPlayer.tsx lines 47–48, 140–148, 338–361) -/

/-- The fields of a feed item consumed by the like/bookmark logic. -/
structure FeedItem where
  likes : ℤ
  has_liked : Bool
  bookmarks : ℤ
  has_bookmarked : Bool
  deriving DecidableEq, Repr

/-- The rendered like counter (line 341):
`item.likes + (isLiked && !item.has_liked ? 1 : 0)`. -/
def displayedLikeCount (item : FeedItem) (isLiked : Bool) : ℤ :=
  item.likes + (if isLiked && !item.has_liked then 1 else 0)

/-- The rendered bookmark counter (line 359):
`item.bookmarks + (isBookmarked && !item.has_bookmarked ? 1 : 0)`. -/
def displayedBookmarkCount (item : FeedItem) (isBookmarked : Bool) : ℤ :=
  item.bookmarks + (if isBookmarked && !item.has_bookmarked then 1 else 0)

/-- The displayed-counter formula of the claim, following the words of the spec:
original count plus "+1 when the local flag is on and the original
viewer-relative flag was off, and -1 when the local flag is off and the
original flag was on". -/
def specDisplayedLikeCount (item : FeedItem) (isLiked : Bool) : ℤ :=
  item.likes +
    (if isLiked && !item.has_liked then 1
     else if !isLiked && item.has_liked then -1
     else 0)

/-- `handleLike` / `handleBookmark` (lines 140–148) toggle the local flag
(`setIsLiked(!isLiked)`) and fire the network mutation, whose outcome is
never consumed (`onSuccess`/`onError` are empty in both feed screens); the
outcome argument is therefore ignored. -/
def tapEngagement (flag : Bool) (_mutationSucceeded : Bool) : Bool := !flag

/-- The local flag after a sequence of taps, one per recorded mutation
outcome; the initial flag is seeded from the viewer-relative flag of the item
(`useState(item.has_liked)`, line 47). -/
def likedAfterTaps (item : FeedItem) (outcomes : List Bool) : Bool :=
  outcomes.foldl tapEngagement item.has_liked

/-- Same for the bookmark flag (`useState(item.has_bookmarked)`, line 48). -/
def bookmarkedAfterTaps (item : FeedItem) (outcomes : List Bool) : Bool :=
  outcomes.foldl tapEngagement item.has_bookmarked

/-! ## Timeline scrub handlers and their wiring
(src/src/components/feed/VideoPlayer.tsx lines 244–275, 28–44)

`VideoPlayer` destructures the prop `onTimelineControlled`; a missing prop
is `undefined` in JavaScript, and calling `undefined` throws a `TypeError`.
The handlers are modelled over an optional callback (`cbPresent` records
whether the parent actually passed a function under that name) and return
either the resulting state paired with the emitted lock signals, or the
state reached at the point of the throw. -/

/-- The window width from Dimensions.get, an arbitrary positive screen width. -/
def SCREEN_WIDTH : ℚ := 360

/-- The player-item state touched by the scrub handlers. -/
structure ScrubState where
  showControls : Bool
  showDurationControl : Bool
  isPlaying : Bool
  currentTime : ℚ
  elapsedTimeProgression : ℚ
  deriving DecidableEq, Repr

/-- `OnTimelineTouchStart` (lines 244–252): hide controls, show the duration
control, pause, then call `onTimelineControlled(true)` — which throws if the
prop is absent.  On success the emitted signal list is `[true]`. -/
def OnTimelineTouchStart (cbPresent : Bool) (s : ScrubState) :
    Except ScrubState (ScrubState × List Bool) :=
  let s1 : ScrubState :=
    { s with showControls := false, showDurationControl := true, isPlaying := false }
  if cbPresent then .ok (s1, [true]) else .error s1

/-- `onTimelineTouchMove` (lines 254–266): set the position to
`player.duration * event.nativeEvent.pageX / SCREEN_WIDTH` and recompute the
progression percentage; the preview `play(); pause()` leaves `isPlaying`
state untouched. -/
def onTimelineTouchMove (duration pageX : ℚ) (s : ScrubState) : ScrubState :=
  let newCurentTime := duration * pageX / SCREEN_WIDTH
  { s with
    currentTime := newCurentTime
    elapsedTimeProgression := newCurentTime * 100 / duration }

/-- `OnTimelineTouchEnd` (lines 268–275): hide the duration control, resume
playback, then call `onTimelineControlled(false)`. -/
def OnTimelineTouchEnd (cbPresent : Bool) (s : ScrubState) :
    Except ScrubState (ScrubState × List Bool) :=
  let s1 : ScrubState := { s with showDurationControl := false, isPlaying := true }
  if cbPresent then .ok (s1, [false]) else .error s1

/-! ## The video player state machine
(src/src/components/feed/VideoPlayer.tsx)

State fields mirror the props of the component (`isActive`, `screenFocused`,
`commentsOpen`, `shareOpen`, `otherOpen`), its React state (`isPlaying`,
`showControls`, `playSensitive`), and its refs (`manualControlRef`,
`wasActiveRef`, the pending controls auto-hide timeout).  `mounted` records
whether the component is still mounted: an unmounted component receives no
prop updates and no presses, but a `setTimeout` callback would still fire
unless the timeout was cleared.  The playback position is not modelled here
(no claim settled on this machine concerns it); scrubbing is modelled
separately above.

`isMountedRef` (line 53) is initialised `true` and never written anywhere in
the file, so every `isMountedRef.current` check reads the constant `true`;
it is modelled as such.

React effect semantics are inlined: an effect re-runs exactly when one of
its declared dependency values changed.  The auto play/pause effect (lines
92–127) depends on `isActive`, `commentsOpen`, `shareOpen`, `otherOpen`,
`screenFocused`, `item.is_sensitive` (constant) and `playSensitive`; the
reset effect (lines 129–134) depends on `isActive` only.  Effects run in
declaration order: auto effect first, then the reset effect; if the reset
effect changes `playSensitive` (a dependency of the auto effect), the auto
effect runs again, and that second run writes nothing any effect depends
on, so the cascade stops there.  For each event the set of changed
dependencies is known, which the per-event cases below spell out. -/

/-- `isMountedRef.current`: initialised `true` (line 53), never set `false`. -/
def isMountedRefCurrent : Bool := true

/-- The per-item constant consumed by the machine. -/
structure PlayerItem where
  is_sensitive : Bool
  deriving DecidableEq, Repr

/-- The machine state of one `VideoPlayer` instance. -/
structure PlayerState where
  isActive : Bool
  screenFocused : Bool
  commentsOpen : Bool
  shareOpen : Bool
  otherOpen : Bool
  isPlaying : Bool
  showControls : Bool
  playSensitive : Bool
  manualControl : Bool
  wasActive : Bool
  timerPending : Bool
  mounted : Bool
  deriving DecidableEq, Repr

/-- The body of the auto play/pause effect (lines 92–127), run only when one
of its dependencies changed:
early return under `manualControlRef.current`; otherwise
`shouldPlay = isActive && screenFocused && !(item.is_sensitive && !playSensitive)`,
play or pause under the `isMountedRef.current` guard, and record
`wasActiveRef.current = isActive`.  (The `player.currentTime = 0` write on
re-activation touches only the unmodelled position.) -/
def runAutoEffect (item : PlayerItem) (s : PlayerState) : PlayerState :=
  if s.manualControl then s
  else
    let shouldPlay := s.isActive && s.screenFocused &&
      !(item.is_sensitive && !s.playSensitive)
    if shouldPlay && isMountedRefCurrent then
      { s with isPlaying := true, wasActive := s.isActive }
    else if isMountedRefCurrent then
      { s with isPlaying := false, wasActive := s.isActive }
    else
      { s with wasActive := s.isActive }

/-- The body of the reset effect (lines 129–134), run only when `isActive`
changed: `if (!isActive) { manualControlRef.current = false; setPlaySensitive(false); }`. -/
def runResetEffect (s : PlayerState) : PlayerState :=
  if !s.isActive then { s with manualControl := false, playSensitive := false } else s

/-- `handleScreenPress` (lines 172–196): toggle `showControls`, clear any
pending auto-hide timeout, and either arm a new 3 s timeout (controls now
shown) or clear the manual-control flag (controls now hidden). -/
def handleScreenPress (s : PlayerState) : PlayerState :=
  if !isMountedRefCurrent then s
  else
    let newShowControls := !s.showControls
    let s1 := { s with showControls := newShowControls, timerPending := false }
    if newShowControls then { s1 with timerPending := true }
    else { s1 with manualControl := false }

/-- `togglePlayPause` (lines 150–166): set the manual-control flag and flip
play/pause.  `isPlaying` is a dependency of no effect, so no effect re-runs. -/
def togglePlayPause (s : PlayerState) : PlayerState :=
  if !isMountedRefCurrent then s
  else { s with manualControl := true, isPlaying := !s.isPlaying }

/-- Whether the sensitive-content overlay is rendered instead of the player
UI (line 210): `item.is_sensitive && !playSensitive`.  While it is shown the
video surface, the controls and the timeline are not rendered, so their
events cannot be delivered. -/
def sensitiveGated (item : PlayerItem) (s : PlayerState) : Bool :=
  item.is_sensitive && !s.playSensitive

/-- The events a mounted `VideoPlayer` can receive: prop updates from the
feed screen (`setActive`, `setFocus`, `setComments`, `setShare`, `setOther`),
the "Watch anyways" acknowledgement press, a press on the video surface, a
press on the play/pause control, the 3 s auto-hide timeout firing, and
unmount. -/
inductive PEvent where
  | setActive (b : Bool)
  | setFocus (b : Bool)
  | setComments (b : Bool)
  | setShare (b : Bool)
  | setOther (b : Bool)
  | ack
  | screenPress
  | pressPlayPause
  | timerFire
  | unmount
  deriving DecidableEq, Repr

/-- One event, including the effect runs it triggers.

* Prop updates reach only mounted components.  A prop update whose value is
  unchanged changes no dependency, so no effect runs.  On `setActive` both
  effect dependency sets change: the auto effect runs first, then the reset
  effect; if the reset effect cleared `playSensitive`, the auto effect runs
  once more.  On focus/modal updates only the auto effect dependencies
  change.
* `ack` (`handleViewSensitiveContent`, lines 206–208) is deliverable while
  the sensitive overlay is rendered; `setPlaySensitive(true)` changes an
  auto-effect dependency, so the auto effect runs.
* `screenPress` is deliverable when the overlay is not rendered and the
  full-surface `Pressable` is enabled — it has `disabled={showControls}`
  (line 294), so only when the controls are hidden.
* `pressPlayPause` is deliverable when the overlay is not rendered and the
  controls overlay is visible (line 297).
* `timerFire` happens whenever a timeout is pending, mounted or not; its
  callback (lines 187–192) checks `isMountedRef.current` (constantly true)
  and then hides the controls and clears the manual-control flag.
* `unmount` runs the cleanup effect (lines 198–204), which clears any
  pending timeout. -/
def step (item : PlayerItem) (e : PEvent) (s : PlayerState) : PlayerState :=
  match e with
  | .setActive b =>
    if !s.mounted then s
    else if b = s.isActive then s
    else
      let s1 := runAutoEffect item { s with isActive := b }
      if b then s1
      else
        let s2 := { s1 with manualControl := false, playSensitive := false }
        if s1.playSensitive then runAutoEffect item s2 else s2
  | .setFocus b =>
    if !s.mounted then s
    else if b = s.screenFocused then s
    else runAutoEffect item { s with screenFocused := b }
  | .setComments b =>
    if !s.mounted then s
    else if b = s.commentsOpen then s
    else runAutoEffect item { s with commentsOpen := b }
  | .setShare b =>
    if !s.mounted then s
    else if b = s.shareOpen then s
    else runAutoEffect item { s with shareOpen := b }
  | .setOther b =>
    if !s.mounted then s
    else if b = s.otherOpen then s
    else runAutoEffect item { s with otherOpen := b }
  | .ack =>
    if s.mounted && sensitiveGated item s then
      runAutoEffect item { s with playSensitive := true }
    else s
  | .screenPress =>
    if s.mounted && !sensitiveGated item s && !s.showControls then
      handleScreenPress s
    else s
  | .pressPlayPause =>
    if s.mounted && !sensitiveGated item s && s.showControls then
      togglePlayPause s
    else s
  | .timerFire =>
    if s.timerPending then
      let s1 := { s with timerPending := false }
      if isMountedRefCurrent then
        { s1 with showControls := false, manualControl := false }
      else s1
    else s
  | .unmount =>
    if s.mounted then { s with mounted := false, timerPending := false } else s

/-- Initial state: the component mounts with the given `isActive` and
`screenFocused` props, no modal open, all React state at its `useState`
initial value, refs at their initial values; on mount every effect runs
once (auto effect first, then the reset effect — whose `setPlaySensitive
(false)` cannot change the already-`false` value, so no second auto run). -/
def initPlayerState (item : PlayerItem) (isActive₀ screenFocused₀ : Bool) :
    PlayerState :=
  runResetEffect <| runAutoEffect item
    { isActive := isActive₀
      screenFocused := screenFocused₀
      commentsOpen := false
      shareOpen := false
      otherOpen := false
      isPlaying := false
      showControls := false
      playSensitive := false
      manualControl := false
      wasActive := false
      timerPending := false
      mounted := true }

/-- Run a trace of events from the initial state. -/
def runTrace (item : PlayerItem) (isActive₀ screenFocused₀ : Bool)
    (tr : List PEvent) : PlayerState :=
  tr.foldl (fun s e => step item e s) (initPlayerState item isActive₀ screenFocused₀)

/-! ## Auxiliary definitions used by the theorems -/

/-- The C1 invariant for a sensitive item: playing while active implies the
acknowledgement flag, and manual control implies the flag (the play/pause
control is only rendered while the overlay is not). -/
def c1Inv (s : PlayerState) : Prop :=
  (s.isActive = true → s.isPlaying = true → s.playSensitive = true) ∧
  (s.manualControl = true → s.playSensitive = true)

/-- The events the spec calls automatic for C2: visibility (re)assertion,
focus changes, and modal open/close prop updates; `setActive false` (the
item becoming inactive) is excluded, as the claim scopes the suppression
"until the item becomes inactive". -/
def isAutoPEvent : PEvent → Bool
  | .setActive b => b
  | .setFocus _ => true
  | .setComments _ => true
  | .setShare _ => true
  | .setOther _ => true
  | _ => false

/-- The suffix of a trace strictly after its last `setActive true` event:
the events delivered during the final activation. -/
def eventsAfterLastActivation (tr : List PEvent) : List PEvent :=
  (tr.reverse.takeWhile (fun e => decide (e ≠ PEvent.setActive true))).reverse

/-- A feed item flagged sensitive. -/
def sensitiveItem : PlayerItem := ⟨true⟩

/-- A feed item not flagged sensitive. -/
def plainItem : PlayerItem := ⟨false⟩

/-- An item the viewer had already liked and bookmarked, with 10 of each. -/
def likedExampleItem : FeedItem := ⟨10, true, 10, true⟩

/-- A feed screen scrolled to item 5 at offset 7, with no fetch in flight. -/
def refreshExampleState : FeedScreenState := ⟨5, 7, false, 0⟩

/-- A player item in normal playback, about to be scrubbed. -/
def scrubPlayingState : ScrubState := ⟨false, false, true, 0, 0⟩

/-- The same player item once the scrub gesture has started. -/
def scrubHeldState : ScrubState := ⟨false, true, false, 0, 0⟩


/-! ## Helper lemmas -/

lemma runAuto_playSensitive (item : PlayerItem) (s : PlayerState) :
    (runAutoEffect item s).playSensitive = s.playSensitive := by
  simp only [runAutoEffect]; split_ifs <;> rfl

lemma runAuto_manualControl (item : PlayerItem) (s : PlayerState) :
    (runAutoEffect item s).manualControl = s.manualControl := by
  simp only [runAutoEffect]; split_ifs <;> rfl

lemma runAuto_isActive (item : PlayerItem) (s : PlayerState) :
    (runAutoEffect item s).isActive = s.isActive := by
  simp only [runAutoEffect]; split_ifs <;> rfl

lemma runAuto_isPlaying (item : PlayerItem) (s : PlayerState) :
    (runAutoEffect item s).isPlaying =
      if s.manualControl then s.isPlaying
      else s.isActive && s.screenFocused && !(item.is_sensitive && !s.playSensitive) := by
  simp only [runAutoEffect, isMountedRefCurrent]
  by_cases hm : s.manualControl = true
  · simp [hm]
  · simp only [Bool.not_eq_true] at hm
    simp only [hm, Bool.false_eq_true, if_false]
    split_ifs with h1 <;> simp_all

lemma runAuto_of_manual (item : PlayerItem) (s : PlayerState)
    (hm : s.manualControl = true) : runAutoEffect item s = s := by
  simp [runAutoEffect, hm]

lemma handleSP_isActive (s : PlayerState) :
    (handleScreenPress s).isActive = s.isActive := by
  simp only [handleScreenPress]; split_ifs <;> rfl

lemma handleSP_isPlaying (s : PlayerState) :
    (handleScreenPress s).isPlaying = s.isPlaying := by
  simp only [handleScreenPress]; split_ifs <;> rfl

lemma handleSP_playSensitive (s : PlayerState) :
    (handleScreenPress s).playSensitive = s.playSensitive := by
  simp only [handleScreenPress]; split_ifs <;> rfl

lemma handleSP_manualControl (s : PlayerState) :
    (handleScreenPress s).manualControl = true → s.manualControl = true := by
  simp only [handleScreenPress]; split_ifs <;> simp_all

lemma c1Inv_runAuto (item : PlayerItem) (h : item.is_sensitive = true)
    (t : PlayerState) (h2 : t.manualControl = true → t.playSensitive = true) :
    c1Inv (runAutoEffect item t) := by
  constructor
  · rw [runAuto_isActive, runAuto_isPlaying, runAuto_playSensitive]
    intro ha
    by_cases hm : t.manualControl = true
    · intro _; exact h2 hm
    · simp only [Bool.not_eq_true] at hm
      simp only [hm, Bool.false_eq_true, if_false, h, ha]
      cases hps : t.playSensitive <;> simp [hps]
  · rw [runAuto_manualControl, runAuto_playSensitive]; exact h2

lemma c1Inv_step (item : PlayerItem) (h : item.is_sensitive = true)
    (s : PlayerState) (hs : c1Inv s) (e : PEvent) : c1Inv (step item e s) := by
  obtain ⟨h1, h2⟩ := hs
  cases e with
  | setActive b =>
    simp only [step]
    split
    · exact ⟨h1, h2⟩
    · split
      · exact ⟨h1, h2⟩
      · split
        · exact c1Inv_runAuto item h _ (by simpa using h2)
        · next hbt =>
          split
          · exact c1Inv_runAuto item h _ (by simp)
          · constructor
            · intro ha _
              exfalso
              apply hbt
              simpa [runAuto_isActive] using ha
            · simp
  | setFocus b =>
    simp only [step]
    split
    · exact ⟨h1, h2⟩
    · split
      · exact ⟨h1, h2⟩
      · exact c1Inv_runAuto item h _ (by simpa using h2)
  | setComments b =>
    simp only [step]
    split
    · exact ⟨h1, h2⟩
    · split
      · exact ⟨h1, h2⟩
      · exact c1Inv_runAuto item h _ (by simpa using h2)
  | setShare b =>
    simp only [step]
    split
    · exact ⟨h1, h2⟩
    · split
      · exact ⟨h1, h2⟩
      · exact c1Inv_runAuto item h _ (by simpa using h2)
  | setOther b =>
    simp only [step]
    split
    · exact ⟨h1, h2⟩
    · split
      · exact ⟨h1, h2⟩
      · exact c1Inv_runAuto item h _ (by simpa using h2)
  | ack =>
    simp only [step]
    split
    · exact c1Inv_runAuto item h _ (by simp)
    · exact ⟨h1, h2⟩
  | screenPress =>
    simp only [step]
    split
    · refine ⟨?_, ?_⟩
      · rw [handleSP_isActive, handleSP_isPlaying, handleSP_playSensitive]
        exact h1
      · intro hm
        rw [handleSP_playSensitive]
        exact h2 (handleSP_manualControl s hm)
    · exact ⟨h1, h2⟩
  | pressPlayPause =>
    simp only [step]
    split
    · next hg =>
      have hps : s.playSensitive = true := by
        cases hq : s.playSensitive
        · exfalso; simp [sensitiveGated, h, hq] at hg
        · rfl
      simp only [togglePlayPause, isMountedRefCurrent, Bool.not_true,
        Bool.false_eq_true, if_false]
      exact ⟨fun _ _ => hps, fun _ => hps⟩
    · exact ⟨h1, h2⟩
  | timerFire =>
    simp only [step, isMountedRefCurrent, if_true]
    split
    · exact ⟨h1, by simp⟩
    · exact ⟨h1, h2⟩
  | unmount =>
    simp only [step]
    split
    · exact ⟨h1, h2⟩
    · exact ⟨h1, h2⟩

lemma c1Inv_init (item : PlayerItem) (h : item.is_sensitive = true)
    (a₀ f₀ : Bool) : c1Inv (initPlayerState item a₀ f₀) := by
  obtain ⟨sv⟩ := item
  simp only [PlayerItem.mk.injEq] at h
  subst h
  cases a₀ <;> cases f₀ <;> exact ⟨by decide, by decide⟩

lemma c1Inv_runTrace (item : PlayerItem) (h : item.is_sensitive = true)
    (a₀ f₀ : Bool) (tr : List PEvent) : c1Inv (runTrace item a₀ f₀ tr) := by
  have main : ∀ (l : List PEvent) (s : PlayerState), c1Inv s →
      c1Inv (l.foldl (fun s e => step item e s) s) := by
    intro l
    induction l with
    | nil => intro s hs; exact hs
    | cons e l ih =>
      intro s hs
      exact ih _ (c1Inv_step item h s hs e)
  exact main tr _ (c1Inv_init item h a₀ f₀)

lemma nonack_playSensitive (item : PlayerItem) (e : PEvent) (hne : e ≠ PEvent.ack)
    (s : PlayerState) :
    (step item e s).playSensitive = true → s.playSensitive = true := by
  cases e with
  | ack => exact absurd rfl hne
  | setActive b =>
    simp only [step]
    split
    · exact id
    · split
      · exact id
      · split
        · rw [runAuto_playSensitive]; simp
        · split
          · rw [runAuto_playSensitive]; simp
          · simp
  | setFocus b =>
    simp only [step]
    split
    · exact id
    · split
      · exact id
      · rw [runAuto_playSensitive]; simp
  | setComments b =>
    simp only [step]
    split
    · exact id
    · split
      · exact id
      · rw [runAuto_playSensitive]; simp
  | setShare b =>
    simp only [step]
    split
    · exact id
    · split
      · exact id
      · rw [runAuto_playSensitive]; simp
  | setOther b =>
    simp only [step]
    split
    · exact id
    · split
      · exact id
      · rw [runAuto_playSensitive]; simp
  | screenPress =>
    simp only [step]
    split
    · rw [handleSP_playSensitive]; exact id
    · exact id
  | pressPlayPause =>
    simp only [step]
    split
    · simp [togglePlayPause, isMountedRefCurrent]
    · exact id
  | timerFire =>
    simp only [step, isMountedRefCurrent, if_true]
    split
    · simp
    · exact id
  | unmount =>
    simp only [step]
    split
    · simp
    · exact id

lemma deactivate_resets_playSensitive (item : PlayerItem) (s : PlayerState)
    (hm : s.mounted = true) (ha : s.isActive = true) :
    (step item (.setActive false) s).playSensitive = false := by
  simp only [step, hm, ha, Bool.not_true, Bool.false_eq_true, if_false]
  split <;> simp [runAuto_playSensitive]

lemma c2_suppression (item : PlayerItem) (s : PlayerState) (e : PEvent)
    (hm : s.manualControl = true) (he : isAutoPEvent e = true) :
    (step item e s).isPlaying = s.isPlaying ∧ (step item e s).manualControl = true := by
  cases e with
  | setActive b =>
    simp only [isAutoPEvent] at he
    subst he
    simp only [step]
    split
    · exact ⟨rfl, hm⟩
    · split
      · exact ⟨rfl, hm⟩
      · split
        · rw [runAuto_of_manual item _ (by simpa using hm)]
          exact ⟨rfl, hm⟩
        · next hbf => exact absurd trivial hbf
  | setFocus b =>
    simp only [step]
    split
    · exact ⟨rfl, hm⟩
    · split
      · exact ⟨rfl, hm⟩
      · rw [runAuto_of_manual item _ (by simpa using hm)]
        exact ⟨rfl, hm⟩
  | setComments b =>
    simp only [step]
    split
    · exact ⟨rfl, hm⟩
    · split
      · exact ⟨rfl, hm⟩
      · rw [runAuto_of_manual item _ (by simpa using hm)]
        exact ⟨rfl, hm⟩
  | setShare b =>
    simp only [step]
    split
    · exact ⟨rfl, hm⟩
    · split
      · exact ⟨rfl, hm⟩
      · rw [runAuto_of_manual item _ (by simpa using hm)]
        exact ⟨rfl, hm⟩
  | setOther b =>
    simp only [step]
    split
    · exact ⟨rfl, hm⟩
    · split
      · exact ⟨rfl, hm⟩
      · rw [runAuto_of_manual item _ (by simpa using hm)]
        exact ⟨rfl, hm⟩
  | ack => simp [isAutoPEvent] at he
  | screenPress => simp [isAutoPEvent] at he
  | pressPlayPause => simp [isAutoPEvent] at he
  | timerFire => simp [isAutoPEvent] at he
  | unmount => simp [isAutoPEvent] at he

lemma c2_clearing (item : PlayerItem) (s : PlayerState) (e : PEvent)
    (hm : s.manualControl = true) :
    ((step item e s).manualControl = false ↔
      (e = .setActive false ∧ s.mounted = true ∧ s.isActive = true) ∨
      (e = .timerFire ∧ s.timerPending = true)) := by
  cases e with
  | setActive b =>
    simp only [step]
    split
    · next hmn =>
      have hm2 : s.mounted = false := by revert hmn; cases s.mounted <;> simp
      simp [hm, hm2]
    · next hmn =>
      have hm2 : s.mounted = true := by revert hmn; cases s.mounted <;> simp
      split
      · next hb =>
        cases hA : s.isActive
        · rw [hA] at hb; subst hb; simp [hm, hA]
        · rw [hA] at hb; subst hb; simp [hm]
      · next hb =>
        split
        · next hbt =>
          subst hbt
          simp [runAuto_manualControl, hm]
        · next hbf =>
          have hb0 : b = false := by revert hbf; cases b <;> simp
          subst hb0
          have hA : s.isActive = true := by revert hb; cases s.isActive <;> simp
          split <;> simp [runAuto_manualControl, hm2, hA]
  | setFocus b =>
    simp only [step]
    split
    · simp [hm]
    · split
      · simp [hm]
      · simp [runAuto_manualControl, hm]
  | setComments b =>
    simp only [step]
    split
    · simp [hm]
    · split
      · simp [hm]
      · simp [runAuto_manualControl, hm]
  | setShare b =>
    simp only [step]
    split
    · simp [hm]
    · split
      · simp [hm]
      · simp [runAuto_manualControl, hm]
  | setOther b =>
    simp only [step]
    split
    · simp [hm]
    · split
      · simp [hm]
      · simp [runAuto_manualControl, hm]
  | ack =>
    simp only [step]
    split
    · simp [runAuto_manualControl, hm]
    · simp [hm]
  | screenPress =>
    simp only [step]
    split
    · next hg =>
      have hsc : s.showControls = false := by
        revert hg; cases s.showControls <;> simp
      simp [handleScreenPress, isMountedRefCurrent, hsc, hm]
    · simp [hm]
  | pressPlayPause =>
    simp only [step]
    split
    · simp [togglePlayPause, isMountedRefCurrent, hm]
    · simp [hm]
  | timerFire =>
    simp only [step, isMountedRefCurrent, if_true]
    split
    · next hp => simp [hp]
    · next hp =>
      have hp2 : s.timerPending = false := by revert hp; cases s.timerPending <;> simp
      simp [hm, hp2]
  | unmount =>
    simp only [step]
    split
    · simp [hm]
    · simp [hm]

lemma foldl_min_of_le {x : ℕ} {xs : List ℕ} (h : ∀ y ∈ xs, x ≤ y) :
    xs.foldl min x = x := by
  induction xs generalizing x with
  | nil => rfl
  | cons y ys ih =>
    simp only [List.foldl_cons]
    rw [min_eq_left (h y (by simp))]
    exact ih fun z hz => h z (by simp [hz])

lemma foldl_tapEngagement (outcomes : List Bool) (f : Bool) :
    outcomes.foldl tapEngagement f =
      if outcomes.length % 2 = 1 then !f else f := by
  induction outcomes generalizing f with
  | nil => simp
  | cons o os ih =>
    simp only [List.foldl_cons, List.length_cons, tapEngagement]
    rw [ih]
    rcases Nat.mod_two_eq_zero_or_one os.length with h | h
    · have h2 : (os.length + 1) % 2 = 1 := by omega
      simp [h, h2]
    · have h2 : (os.length + 1) % 2 = 0 := by omega
      simp [h, h2]


/-! ## Claim theorems -/

/-- C1 (corrected), counterexample to the claim as stated: for the sensitive
item, the trace [ack, setActive true] — the user presses "Watch anyways"
while the item is still off-screen but mounted, then scrolls it in — ends
with the item active and playing although no acknowledgement event occurred
during that activation (the suffix of the trace after the last activation is
empty).  The reset effect runs only when `isActive` changes, so an
acknowledgement given while inactive survives into the next activation. -/
theorem c1_sensitive_gate_counterexample :
    sensitiveItem.is_sensitive = true ∧
    (runTrace sensitiveItem false true [PEvent.ack, PEvent.setActive true]).isActive = true ∧
    (runTrace sensitiveItem false true [PEvent.ack, PEvent.setActive true]).isPlaying = true ∧
    eventsAfterLastActivation [PEvent.ack, PEvent.setActive true] = [] := by
  decide

/-- C1 (corrected), the amended claim: for a sensitive item, (1) along every
event trace, playing while active implies the acknowledgement flag is set;
(2) no event other than an explicit acknowledgement ever sets that flag; and
(3) whenever a mounted active item is deactivated, the flag is reset to
false.  Together: a sensitive item plays while active only if an explicit
acknowledgement occurred since it last became inactive (rather than strictly
during the same activation, which the counterexample refutes). -/
theorem c1_sensitive_gate_amended (item : PlayerItem) (h : item.is_sensitive = true) :
    (∀ (isActive₀ screenFocused₀ : Bool) (tr : List PEvent),
        (runTrace item isActive₀ screenFocused₀ tr).isActive = true →
        (runTrace item isActive₀ screenFocused₀ tr).isPlaying = true →
        (runTrace item isActive₀ screenFocused₀ tr).playSensitive = true) ∧
    (∀ (e : PEvent), e ≠ PEvent.ack → ∀ s : PlayerState,
        (step item e s).playSensitive = true → s.playSensitive = true) ∧
    (∀ s : PlayerState, s.mounted = true → s.isActive = true →
        (step item (.setActive false) s).playSensitive = false) :=
  ⟨fun a₀ f₀ tr => (c1Inv_runTrace item h a₀ f₀ tr).1,
   fun e hne s => nonack_playSensitive item e hne s,
   fun s hmo ha => deactivate_resets_playSensitive item s hmo ha⟩

/-- Witness for C1: the amended theorem applied to the sensitive item at
the one-event trace [ack] from an active focused start. -/
theorem c1_sensitive_gate_witness :
    sensitiveItem.is_sensitive = true ∧
    ((runTrace sensitiveItem true true [PEvent.ack]).isActive = true →
      (runTrace sensitiveItem true true [PEvent.ack]).isPlaying = true →
      (runTrace sensitiveItem true true [PEvent.ack]).playSensitive = true) :=
  ⟨rfl, (c1_sensitive_gate_amended sensitiveItem rfl).1 true true [PEvent.ack]⟩

/-- C2 (corrected), counterexample to the claim as stated: after
[setActive true, screenPress, pressPlayPause] the user has manually paused
(manual flag set, video paused, item still active); the 3 s auto-hide timer
firing then clears the manual flag while the item is still active — refuting
"the manual-control flag is cleared only by the item becoming inactive" —
and the subsequent focus-loss/focus-gain pair resumes playback
automatically although the item never became inactive. -/
theorem c2_manual_control_counterexample :
    (runTrace plainItem false true
      [PEvent.setActive true, PEvent.screenPress, PEvent.pressPlayPause]).manualControl = true ∧
    (runTrace plainItem false true
      [PEvent.setActive true, PEvent.screenPress, PEvent.pressPlayPause]).isPlaying = false ∧
    (runTrace plainItem false true
      [PEvent.setActive true, PEvent.screenPress, PEvent.pressPlayPause]).isActive = true ∧
    (runTrace plainItem false true
      [PEvent.setActive true, PEvent.screenPress, PEvent.pressPlayPause,
       PEvent.timerFire]).manualControl = false ∧
    (runTrace plainItem false true
      [PEvent.setActive true, PEvent.screenPress, PEvent.pressPlayPause,
       PEvent.timerFire]).isActive = true ∧
    (runTrace plainItem false true
      [PEvent.setActive true, PEvent.screenPress, PEvent.pressPlayPause,
       PEvent.timerFire, PEvent.setFocus false, PEvent.setFocus true]).isPlaying = true ∧
    PEvent.setActive false ∉
      [PEvent.setActive true, PEvent.screenPress, PEvent.pressPlayPause,
       PEvent.timerFire, PEvent.setFocus false, PEvent.setFocus true] := by
  decide

/-- C2 (corrected), the amended claim: while the manual-control flag is set,
(1) no automatic event — a visibility re-assertion, focus change, or modal
open/close — changes the play/pause state or clears the flag; and (2) the
flag is cleared exactly when the mounted active item becomes inactive or
when the pending 3 s controls auto-hide timer fires (a second screen tap
cannot clear it: the full-screen Pressable is disabled while the controls
are shown, so `handleScreenPress` is unreachable then). -/
theorem c2_manual_control_amended (item : PlayerItem) (s : PlayerState) (e : PEvent)
    (hm : s.manualControl = true) :
    (isAutoPEvent e = true →
      (step item e s).isPlaying = s.isPlaying ∧ (step item e s).manualControl = true) ∧
    ((step item e s).manualControl = false ↔
      (e = PEvent.setActive false ∧ s.mounted = true ∧ s.isActive = true) ∨
      (e = PEvent.timerFire ∧ s.timerPending = true)) :=
  ⟨c2_suppression item s e hm, c2_clearing item s e hm⟩

/-- Witness for C2: the amended theorem applied at the state reached by
[screenPress, pressPlayPause] (manual pause with the timer pending) and the
timer-fire event. -/
theorem c2_manual_control_witness :
    (runTrace plainItem true true [PEvent.screenPress, PEvent.pressPlayPause]).manualControl = true ∧
    ((step plainItem PEvent.timerFire
        (runTrace plainItem true true [PEvent.screenPress, PEvent.pressPlayPause])).manualControl = false ↔
      (PEvent.timerFire = PEvent.setActive false ∧
        (runTrace plainItem true true [PEvent.screenPress, PEvent.pressPlayPause]).mounted = true ∧
        (runTrace plainItem true true [PEvent.screenPress, PEvent.pressPlayPause]).isActive = true) ∨
      (PEvent.timerFire = PEvent.timerFire ∧
        (runTrace plainItem true true [PEvent.screenPress, PEvent.pressPlayPause]).timerPending = true)) :=
  ⟨by decide,
   (c2_manual_control_amended plainItem
      (runTrace plainItem true true [PEvent.screenPress, PEvent.pressPlayPause])
      PEvent.timerFire (by decide)).2⟩

/-- C3 (code bug): an active, focused, non-manual item is playing; the
comments modal opens for it (`commentsOpen` becomes true) — and the item
keeps playing.  The modal flags appear in the dependency array of the auto
play/pause effect but are never read in `shouldPlay`
(src/src/components/feed/VideoPlayer.tsx line 100), so a modal opening
never pauses playback, contradicting the claim (and the spec transition
`active-* → active-paused-auto`). -/
theorem c3_modal_open_keeps_playing :
    (runTrace plainItem false true
      [PEvent.setActive true, PEvent.setComments true]).commentsOpen = true ∧
    (runTrace plainItem false true
      [PEvent.setActive true, PEvent.setComments true]).isActive = true ∧
    (runTrace plainItem false true
      [PEvent.setActive true, PEvent.setComments true]).screenFocused = true ∧
    (runTrace plainItem false true
      [PEvent.setActive true, PEvent.setComments true]).manualControl = false ∧
    (runTrace plainItem false true
      [PEvent.setActive true, PEvent.setComments true]).isPlaying = true := by
  decide

/-- C4 (code bug): `VideoPlayer` reads its list-scroll-lock callback from the
prop `onTimelineControlled`, but neither feed screen passes a prop of that
name (both pass `onTimelineControlledChanged`), so the prop is `undefined`
and the scrub-start handler throws after pausing instead of emitting the
lock signal.  With the callback actually present, start emits `true` after
pausing and end emits `false` after resuming, and the move handler sets the
position to `duration * pageX / SCREEN_WIDTH`, which lies in `[0, duration]`
whenever the gesture stays on screen — exactly the claimed contract, making
the prop-name mismatch the slip. -/
theorem c4_scrub_lock_signal_mismatch :
    videoPlayerTimelineCallbackProp ∉ loopsFeedVideoPlayerProps ∧
    videoPlayerTimelineCallbackProp ∉ profileFeedVideoPlayerProps ∧
    OnTimelineTouchStart false scrubPlayingState = Except.error scrubHeldState ∧
    OnTimelineTouchStart true scrubPlayingState = Except.ok (scrubHeldState, [true]) ∧
    OnTimelineTouchEnd true scrubHeldState = Except.ok (scrubPlayingState, [false]) ∧
    (∀ (duration pageX : ℚ) (s : ScrubState), 0 ≤ duration → 0 ≤ pageX →
      pageX ≤ SCREEN_WIDTH →
      (onTimelineTouchMove duration pageX s).currentTime = duration * pageX / SCREEN_WIDTH ∧
      0 ≤ (onTimelineTouchMove duration pageX s).currentTime ∧
      (onTimelineTouchMove duration pageX s).currentTime ≤ duration) := by
  refine ⟨by decide, by decide, rfl, rfl, rfl, ?_⟩
  intro duration pageX s hd hp hpw
  simp only [SCREEN_WIDTH] at hpw
  refine ⟨rfl, ?_, ?_⟩
  · show (0 : ℚ) ≤ duration * pageX / SCREEN_WIDTH
    simp only [SCREEN_WIDTH]
    positivity
  · show duration * pageX / SCREEN_WIDTH ≤ duration
    simp only [SCREEN_WIDTH]
    rw [div_le_iff₀ (by norm_num : (0:ℚ) < 360)]
    exact mul_le_mul_of_nonneg_left hpw hd

/-- Witness for C4: the move-handler contract applied at duration 10 and
gesture offset 180 on the held scrub state. -/
theorem c4_scrub_lock_signal_witness :
    (0 : ℚ) ≤ 10 ∧ (0 : ℚ) ≤ 180 ∧ (180 : ℚ) ≤ SCREEN_WIDTH ∧
    ((onTimelineTouchMove 10 180 scrubHeldState).currentTime = 10 * 180 / SCREEN_WIDTH ∧
      0 ≤ (onTimelineTouchMove 10 180 scrubHeldState).currentTime ∧
      (onTimelineTouchMove 10 180 scrubHeldState).currentTime ≤ 10) :=
  ⟨by decide, by decide, by decide,
   c4_scrub_lock_signal_mismatch.2.2.2.2.2 10 180 scrubHeldState
     (by decide) (by decide) (by decide)⟩

/-- C5 (corrected), counterexample to the claim as stated: the callback
writes `viewableItems[0].index || 0` — the index of the FIRST reported row,
not the minimum — so a report listing rows out of ascending order, here
[index 2, index 1], sets the pointer to 2 while the lowest reported index
is 1. -/
theorem c5_active_index_counterexample :
    onViewableItemsChanged [⟨some 2⟩, ⟨some 1⟩] 0 = 2 ∧
    specLowestVisibleIndex [⟨some 2⟩, ⟨some 1⟩] 0 = 1 ∧
    (2 : ℕ) ≠ 1 := by
  decide

/-- C5 (corrected), the amended claim: after any event reporting a non-empty
row set, the pointer equals the index of the first reported row (0 when the
index is null), which equals the lowest reported index whenever the report
lists rows in ascending index order (as the list framework delivers them);
this holds regardless of any earlier reports (second conjunct folds an
arbitrary history of events before the final one). -/
theorem c5_active_index_amended (l : List ViewToken) (ci : ℕ) (hne : l ≠ [])
    (hsorted : List.Sorted (· ≤ ·) (l.map fun t => t.index.getD 0)) :
    onViewableItemsChanged l ci = specLowestVisibleIndex l ci ∧
    ∀ (prev : List (List ViewToken)),
      (prev ++ [l]).foldl (fun c r => onViewableItemsChanged r c) ci =
        specLowestVisibleIndex l ci := by
  cases l with
  | nil => exact absurd rfl hne
  | cons t ts =>
    have hmain : onViewableItemsChanged (t :: ts) ci =
        specLowestVisibleIndex (t :: ts) ci := by
      simp only [onViewableItemsChanged, specLowestVisibleIndex, List.map_cons]
      simp only [List.map_cons] at hsorted
      rw [List.sorted_cons] at hsorted
      exact (foldl_min_of_le hsorted.1).symm
    refine ⟨hmain, fun prev => ?_⟩
    rw [List.foldl_append]
    simpa only [List.foldl_cons, List.foldl_nil] using hmain

/-- Witness for C5: the amended theorem at the ascending report
[index 1, index 4] with prior pointer 9. -/
theorem c5_active_index_witness :
    ([⟨some 1⟩, ⟨some 4⟩] : List ViewToken) ≠ [] ∧
    List.Sorted (· ≤ ·) (([⟨some 1⟩, ⟨some 4⟩] : List ViewToken).map fun t => t.index.getD 0) ∧
    onViewableItemsChanged [⟨some 1⟩, ⟨some 4⟩] 9 =
      specLowestVisibleIndex [⟨some 1⟩, ⟨some 4⟩] 9 :=
  ⟨by decide, by decide,
   (c5_active_index_amended [⟨some 1⟩, ⟨some 4⟩] 9 (by decide) (by decide)).1⟩

/-- C6 (corrected), counterexample to the claim as stated: `onRefresh` only
scrolls to the top and refetches; it never writes the active-item pointer,
so immediately after a refresh from item 5 the pointer still reads 5, not 0
(it only returns to 0 once the ensuing viewability callback reports row 0 —
compare the tab-press handlers, which do call `setCurrentIndex(0)`
explicitly). -/
theorem c6_refresh_counterexample :
    refreshExampleState.currentIndex = 5 ∧
    (onRefresh refreshExampleState).currentIndex = 5 ∧
    (5 : ℕ) ≠ 0 ∧
    (onRefresh refreshExampleState).scrollOffset = 0 := by
  refine ⟨rfl, rfl, by decide, rfl⟩

/-- C6 (corrected), the amended claim: refresh resets the scroll position to
the top and leaves the active-item pointer unchanged (it is not a writer of
the pointer); a refresh while a fetch is already in flight issues no new
fetch — any number of refreshes while one is pending collapse to the single
in-flight fetch — and a refresh from idle issues exactly one. -/
theorem c6_refresh_amended (s : FeedScreenState) :
    (onRefresh s).scrollOffset = 0 ∧
    (onRefresh s).currentIndex = s.currentIndex ∧
    (onRefresh (onRefresh s)).fetchCount = (onRefresh s).fetchCount ∧
    (onRefresh (onRefresh s)).queryInFlight = true ∧
    (s.queryInFlight = false → (onRefresh s).fetchCount = s.fetchCount + 1) := by
  by_cases h : s.queryInFlight = true
  · simp [onRefresh, refetchQuery, h]
  · simp only [Bool.not_eq_true] at h
    simp [onRefresh, refetchQuery, h]

/-- Witness for C6: the amended theorem at the example state (pointer 5,
offset 7, no fetch in flight). -/
theorem c6_refresh_witness :
    refreshExampleState.queryInFlight = false ∧
    (onRefresh refreshExampleState).fetchCount = refreshExampleState.fetchCount + 1 :=
  ⟨rfl, (c6_refresh_amended refreshExampleState).2.2.2.2 rfl⟩

/-- C7 (corrected), counterexample to the claim as stated: on an item the
viewer had already liked (original count 10, `has_liked` true), one unlike
tap turns the local flag off, yet the rendered counter shows
`item.likes + (isLiked && !item.has_liked ? 1 : 0)` = 10, not the
10 − 1 = 9 the claimed −1 delta demands — the rendering has no −1 case. -/
theorem c7_optimistic_counter_counterexample :
    likedAfterTaps likedExampleItem [true] = false ∧
    displayedLikeCount likedExampleItem false = 10 ∧
    specDisplayedLikeCount likedExampleItem false = 9 ∧
    (10 : ℤ) ≠ 9 := by
  decide

/-- C7 (corrected), the amended claim: each tap toggles the local flag
immediately and unconditionally — after any sequence of taps the flag
depends only on the parity of the tap count (never on the recorded mutation
outcomes, which nothing consumes) — and the displayed counter equals the
original count plus 1 exactly when the flag is on and the original
viewer-relative flag was off, with no −1 case (unliking an originally liked
item leaves the original count displayed); likewise for bookmarks. -/
theorem c7_optimistic_counter_amended (item : FeedItem) (outcomes : List Bool) :
    likedAfterTaps item outcomes =
      (if outcomes.length % 2 = 1 then !item.has_liked else item.has_liked) ∧
    displayedLikeCount item (likedAfterTaps item outcomes) =
      item.likes +
        (if outcomes.length % 2 = 1 ∧ item.has_liked = false then 1 else 0) ∧
    bookmarkedAfterTaps item outcomes =
      (if outcomes.length % 2 = 1 then !item.has_bookmarked else item.has_bookmarked) ∧
    displayedBookmarkCount item (bookmarkedAfterTaps item outcomes) =
      item.bookmarks +
        (if outcomes.length % 2 = 1 ∧ item.has_bookmarked = false then 1 else 0) := by
  have hl := foldl_tapEngagement outcomes item.has_liked
  have hb := foldl_tapEngagement outcomes item.has_bookmarked
  refine ⟨hl, ?_, hb, ?_⟩
  · simp only [displayedLikeCount, likedAfterTaps, hl]
    by_cases hp : outcomes.length % 2 = 1 <;>
      cases hhl : item.has_liked <;> simp [hp, hhl]
  · simp only [displayedBookmarkCount, bookmarkedAfterTaps, hb]
    by_cases hp : outcomes.length % 2 = 1 <;>
      cases hhb : item.has_bookmarked <;> simp [hp, hhb]

/-- C8 (corrected), counterexample to the claim as stated: with default
options (precision 0, rounding round) the code returns "1M" for 1235000 —
the scaled value 1.235 rounds to 1 at zero decimals — not the "1.2M" the
claim (and the stale example in the docstring of `prettyCount` itself)
states. -/
theorem c8_prettyCount_counterexample :
    prettyCount 1235000 = "1M" ∧ ("1M" : String) ≠ "1.2M" := by
  constructor
  · have habs : |(1235000:ℚ)| = 1235000 := by norm_num
    have hscale : scaleLoop (1235000:ℚ) 0 = (247/200, 2) := by
      norm_num [scaleLoop, scaleLoopAux]
    have hround : jsRound ((247:ℚ) / 200) = 1 := by norm_num [jsRound]
    simp only [prettyCount, habs, hscale, Rounding.apply]
    norm_num [hround, formatFixed, prettyCountUnits]
    rfl
  · decide

/-- C8 (corrected), the amended claim: with default options
`prettyCount 13245 = "13K"` and `prettyCount 999 = "999"` as claimed, but
`prettyCount 1235000 = "1M"` ("1.2M" requires precision 1); the general
algorithm is as claimed — scale by powers of 1000 up to the largest unit
among none/K/M/B/T (999999 rounds to 1000 at precision 0 and re-scales one
unit to "1M"; 2500000000000 scales to 2.5 and rounds half-up to "3T"), and
the precision and rounding options apply (999999 with floor keeps "999K"). -/
theorem c8_prettyCount_amended :
    prettyCount 13245 = "13K" ∧
    prettyCount 999 = "999" ∧
    prettyCount 1235000 = "1M" ∧
    prettyCount 1235000 1 = "1.2M" ∧
    prettyCount 999999 = "1M" ∧
    prettyCount 999999 0 .floor = "999K" ∧
    prettyCount 2500000000000 = "3T" := by
  refine ⟨?_, ?_, ?_, ?_, ?_, ?_, ?_⟩
  · have habs : |(13245:ℚ)| = 13245 := by norm_num
    have hscale : scaleLoop (13245:ℚ) 0 = (2649/200, 1) := by
      norm_num [scaleLoop, scaleLoopAux]
    have hround : jsRound ((2649:ℚ) / 200) = 13 := by norm_num [jsRound]
    simp only [prettyCount, habs, hscale, Rounding.apply]
    norm_num [hround, formatFixed, prettyCountUnits]
    rfl
  · have habs : |(999:ℚ)| = 999 := by norm_num
    have hscale : scaleLoop (999:ℚ) 0 = (999, 0) := by
      norm_num [scaleLoop, scaleLoopAux]
    have hround : jsRound (999:ℚ) = 999 := by norm_num [jsRound]
    simp only [prettyCount, habs, hscale, Rounding.apply]
    norm_num [hround, formatFixed, prettyCountUnits]
    rfl
  · have habs : |(1235000:ℚ)| = 1235000 := by norm_num
    have hscale : scaleLoop (1235000:ℚ) 0 = (247/200, 2) := by
      norm_num [scaleLoop, scaleLoopAux]
    have hround : jsRound ((247:ℚ) / 200) = 1 := by norm_num [jsRound]
    simp only [prettyCount, habs, hscale, Rounding.apply]
    norm_num [hround, formatFixed, prettyCountUnits]
    rfl
  · have habs : |(1235000:ℚ)| = 1235000 := by norm_num
    have hscale : scaleLoop (1235000:ℚ) 0 = (247/200, 2) := by
      norm_num [scaleLoop, scaleLoopAux]
    have hround : jsRound ((247:ℚ) / 20) = 12 := by norm_num [jsRound]
    simp only [prettyCount, habs, hscale, Rounding.apply]
    norm_num [hround, formatFixed, prettyCountUnits]
    decide
  · have habs : |(999999:ℚ)| = 999999 := by norm_num
    have hscale : scaleLoop (999999:ℚ) 0 = (999999/1000, 1) := by
      norm_num [scaleLoop, scaleLoopAux]
    have hround : jsRound ((999999:ℚ) / 1000) = 1000 := by norm_num [jsRound]
    simp only [prettyCount, habs, hscale, Rounding.apply]
    norm_num [hround, formatFixed, prettyCountUnits]
    decide
  · have habs : |(999999:ℚ)| = 999999 := by norm_num
    have hscale : scaleLoop (999999:ℚ) 0 = (999999/1000, 1) := by
      norm_num [scaleLoop, scaleLoopAux]
    have hfloor : jsFloor ((999999:ℚ) / 1000) = 999 := by norm_num [jsFloor]
    simp only [prettyCount, habs, hscale, Rounding.apply]
    norm_num [hfloor, formatFixed, prettyCountUnits]
    decide
  · have habs : |(2500000000000:ℚ)| = 2500000000000 := by norm_num
    have hscale : scaleLoop (2500000000000:ℚ) 0 = (5/2, 4) := by
      norm_num [scaleLoop, scaleLoopAux]
    have hround : jsRound ((5:ℚ) / 2) = 3 := by norm_num [jsRound]
    simp only [prettyCount, habs, hscale, Rounding.apply]
    norm_num [hround, formatFixed, prettyCountUnits]
    rfl

/-- C9 (confirmed): unmounting a mounted player item with a pending
controls auto-hide timer clears the pending timeout (the cleanup effect
calls `clearTimeout`), and a subsequent timer-fire event is a no-op — no
state update happens after unmount.  Note the protection comes from the
cleanup alone: `isMountedRef` is never set to false anywhere in the file,
so the `isMountedRef.current` guard inside the timer callback would not
stop a timer that had not been cleared. -/
theorem c9_unmount_timer_cancel (item : PlayerItem) (s : PlayerState)
    (hmo : s.mounted = true) (_hp : s.timerPending = true) :
    (step item PEvent.unmount s).timerPending = false ∧
    step item PEvent.timerFire (step item PEvent.unmount s) =
      step item PEvent.unmount s := by
  simp [step, hmo]

/-- Witness for C9: the unmount-cancellation theorem at the state reached
by one screen press (controls shown, auto-hide timer pending). -/
theorem c9_unmount_timer_cancel_witness :
    (runTrace plainItem true true [PEvent.screenPress]).mounted = true ∧
    (runTrace plainItem true true [PEvent.screenPress]).timerPending = true ∧
    ((step plainItem PEvent.unmount
        (runTrace plainItem true true [PEvent.screenPress])).timerPending = false ∧
      step plainItem PEvent.timerFire
          (step plainItem PEvent.unmount
            (runTrace plainItem true true [PEvent.screenPress])) =
        step plainItem PEvent.unmount
          (runTrace plainItem true true [PEvent.screenPress])) :=
  ⟨by decide, by decide,
   c9_unmount_timer_cancel plainItem
     (runTrace plainItem true true [PEvent.screenPress]) (by decide) (by decide)⟩

/-- C10 (confirmed): for any input timestamp at or after the reference time
the elapsed difference is nonpositive, `Math.max(0, ·)` clamps the floored
seconds to 0 before any bucketing, and `timeAgo` returns "now" — a future
date can never produce a seconds/minutes/hours or month-day string. -/
theorem c10_timeAgo_future_now (dMs refMs : ℤ) (h : refMs ≤ dMs) :
    timeAgo dMs refMs = "now" := by
  have hd : refMs - dMs ≤ 0 := by omega
  have hq : ((refMs - dMs : ℤ) : ℚ) / 1000 ≤ 0 := by
    apply div_nonpos_of_nonpos_of_nonneg
    · exact_mod_cast hd
    · norm_num
  have hfl : ⌊((refMs - dMs : ℤ) : ℚ) / 1000⌋ ≤ 0 := Int.floor_nonpos hq
  have hmax : max 0 ⌊((refMs - dMs : ℤ) : ℚ) / 1000⌋ = 0 := max_eq_left hfl
  simp only [timeAgo, hmax]
  norm_num

/-- Witness for C10: a timestamp 2 seconds after the reference time maps to
"now". -/
theorem c10_timeAgo_future_now_witness :
    (3000 : ℤ) ≤ 5000 ∧ timeAgo 5000 3000 = "now" :=
  ⟨by decide, c10_timeAgo_future_now 5000 3000 (by decide)⟩

end LoopsExpo
